import Mathlib

/-!
Verification of the myMalloc allocator (src/myMalloc.c) against its
natural-language specification.

The C program is shallowly embedded as a word-level machine: memory is a
map from 8-aligned addresses to 64-bit words, the free-list sentinel array
lives in a static region, and heap chunks are obtained from a monotone
sbrk.  Every allocator function is translated statement by statement from
src/myMalloc.c, in an explicit state-and-fault-passing style (`Res`,
`bnd`).  The header file myMalloc.h and printing.c are not in the
repository, so the handful of constants and accessors they provide are
modelled from the specification (each such definition says so in its doc
comment).
-/

set_option maxRecDepth 1000000
set_option maxHeartbeats 4000000

namespace MyMalloc

/-- Modelled from the spec: myMalloc.h is not in src/.  `H`, the allocator
header size (spec section 3: "a constant, power of two, typically 16"). -/
def ALLOC_HEADER_SIZE : Nat := 16

/-- Modelled from the spec: myMalloc.h is not in src/.  Number of free-list
size classes (`N = 59` in the reference, spec section 3). -/
def N_LISTS : Nat := 59

/-- Modelled from the spec: myMalloc.h is not in src/.  OS chunk size
(reference value 4096, spec section 4.2). -/
def ARENA_SIZE : Nat := 4096

/-- Modelled from the spec: myMalloc.h is not in src/.  Capacity of the OS
chunk registry.  The spec gives no reference value; 8 is used here, and
every theorem that involves it holds for any positive value. -/
def MAX_OS_CHUNKS : Nat := 8

/-- Modelled from the spec: myMalloc.h is not in src/.  `sizeof(header)` on
the 64-bit reference platform: the header word, the left-size word and the
two list-link words, `H + 16 = 32` bytes (spec section 3, invariant 6). -/
def sizeofHeader : Nat := 32

/-- Modelled from the spec: block state UNALLOCATED (enum value 0). -/
def UNALLOCATED : Nat := 0

/-- Modelled from the spec: block state ALLOCATED (enum value 1). -/
def ALLOCATED : Nat := 1

/-- Modelled from the spec: block state FENCEPOST (enum value 2). -/
def FENCEPOST : Nat := 2

/-- Base address of the static `freelistSentinels` array. -/
def SENT_BASE : Nat := 1024

/-- One past the end of the static sentinel array
(`N_LISTS` headers of `sizeofHeader` bytes each). -/
def SENT_END : Nat := SENT_BASE + N_LISTS * sizeofHeader

/-- Address of the first byte the sbrk heap can occupy; the initial
program break. -/
def HEAP_BASE : Nat := 4096

/-- Address of `&freelistSentinels[i]`. -/
def sentinelAddr (i : Nat) : Nat := SENT_BASE + i * sizeofHeader

/-- The allocator's global state: the word-level memory (as the list of
performed writes, most recent first; unwritten mapped words read as 0,
matching zero-initialised static storage and fresh sbrk pages), the
program break, and the C globals `numOsChunks`, `osChunkList`,
`lastFencePost` and `base`.  `log` records text written to a file
descriptor (1 = stdout, 2 = stderr). -/
structure AllocState where
  writes : List (Nat × Nat)
  brk : Nat
  numOsChunks : Nat
  osChunkList : List Nat
  lastFencePost : Nat
  basePtr : Nat
  log : List (Nat × String)
deriving Repr, DecidableEq, Inhabited

/-- A fault terminating execution: a read or write of an unmapped or
unaligned address (`oob`, carrying the address and the state at the
fault), a failed `assert` (which aborts the process), or fuel exhaustion
of the embedding (never hit by the runs in this file). -/
inductive Fault where
  | oob (a : Nat) (s : AllocState)
  | assertFail (s : AllocState)
  | noFuel (s : AllocState)
deriving Repr, DecidableEq

/-- The result of running a piece of the C program: a value and the state
after it, or a fault. -/
def Res (α : Type) : Type := Except Fault (α × AllocState)

/-- Sequencing: feed the value and state of `r` to the continuation `k`,
propagating faults. -/
def bnd {α β : Type} (r : Res α) (k : α → AllocState → Res β) : Res β :=
  match r with
  | .error e => .error e
  | .ok (a, s) => k a s

/-- Raw view of memory: the value of the word at `a` (0 if never
written). -/
def lookupW : List (Nat × Nat) → Nat → Nat
  | [], _ => 0
  | (b, v) :: rest, a => if a = b then v else lookupW rest a

/-- The word at address `a` in state `s`, ignoring mapping checks (used by
theorem statements and the spec-side predicates). -/
def memAt (s : AllocState) (a : Nat) : Nat := lookupW s.writes a

/-- Whether word address `a` is mapped in state `s`: inside the static
sentinel array or inside the sbrk heap below the break. -/
def mapped (s : AllocState) (a : Nat) : Prop :=
  a % 8 = 0 ∧ (SENT_BASE ≤ a ∧ a + 8 ≤ SENT_END ∨ HEAP_BASE ≤ a ∧ a + 8 ≤ s.brk)

instance (s : AllocState) (a : Nat) : Decidable (mapped s a) := by
  unfold mapped; infer_instance

/-- Read the 64-bit word at address `a`; faults on unmapped addresses
(the C program would dereference an invalid pointer). -/
def readW (a : Nat) (s : AllocState) : Res Nat :=
  if mapped s a then .ok (lookupW s.writes a, s) else .error (.oob a s)

/-- Write the 64-bit word at address `a`. -/
def writeW (a v : Nat) (s : AllocState) : Res Unit :=
  if mapped s a then .ok ((), { s with writes := (a, v) :: s.writes })
  else .error (.oob a s)

/-- Emit `msg` on file descriptor `fd` (1 = stdout, 2 = stderr). -/
def fdWrite (fd : Nat) (msg : String) (s : AllocState) : Res Unit :=
  .ok ((), { s with log := s.log ++ [(fd, msg)] })

/-- `assert(0)`: the process aborts.  Under TEST_ASSERT the C code prints
"Assertion Failed!" on stderr and exits; either way execution ends here
with the state at the abort preserved in the fault. -/
def cAssertFail (s : AllocState) : Res Unit := .error (.assertFail s)

/-- C pointer arithmetic `p - off` on 64-bit size_t.  When `off > p` the C
pointer wraps around to the top of the address space; every such address
is unmapped, which the model represents by the fixed unmapped address
`2 ^ 63`. -/
def offNeg (p off : Nat) : Nat := if off ≤ p then p - off else 2 ^ 63

/-- 64-bit wrapping subtraction, for size computations done in size_t. -/
def sub64 (a b : Nat) : Nat := (a + (2 ^ 64 - b % 2 ^ 64)) % 2 ^ 64

/-- Modelled from the spec: myMalloc.h is not in src/.  `get_block_size`
reads the header word and masks off the state ("the low bits of the size
word co-encode state", spec section 3; sizes are multiples of 8). -/
def get_block_size (h : Nat) (s : AllocState) : Res Nat :=
  bnd (readW h s) fun w s => .ok (w - w % 8, s)

/-- Modelled from the spec: myMalloc.h is not in src/.  `get_block_state`
reads the low three bits of the header word. -/
def get_block_state (h : Nat) (s : AllocState) : Res Nat :=
  bnd (readW h s) fun w s => .ok (w % 8, s)

/-- Modelled from the spec: myMalloc.h is not in src/.  `set_block_size`
stores the (8-aligned) size, preserving the state bits. -/
def set_block_size (h size : Nat) (s : AllocState) : Res Unit :=
  bnd (readW h s) fun w s => writeW h ((size - size % 8) + w % 8) s

/-- Modelled from the spec: myMalloc.h is not in src/.  `set_block_state`
stores the state bits, preserving the size. -/
def set_block_state (h st : Nat) (s : AllocState) : Res Unit :=
  bnd (readW h s) fun w s => writeW h ((w - w % 8) + st) s

/-- `get_header_from_offset` with a non-negative offset
(myMalloc.c line 99). -/
def get_header_from_offset (p off : Nat) : Nat := p + off

/-- `get_right_header` (myMalloc.c line 110): the header at
`h + get_block_size(h)`. -/
def get_right_header (h : Nat) (s : AllocState) : Res Nat :=
  bnd (get_block_size h s) fun sz s => .ok (get_header_from_offset h sz, s)

/-- `get_left_header` (myMalloc.c line 121): the header at
`h - h->left_size`.  The `left_size` field is the word at offset 8. -/
def get_left_header (h : Nat) (s : AllocState) : Res Nat :=
  bnd (readW (h + 8) s) fun ls s => .ok (offNeg h ls, s)

/-- `ptr_to_header` (myMalloc.c line 333): the header sits
`ALLOC_HEADER_SIZE` bytes before the data pointer. -/
def ptr_to_header (p : Nat) : Nat := offNeg p ALLOC_HEADER_SIZE

/-- `initialize_fencepost` (myMalloc.c line 132): mark `fp` FENCEPOST of
size `ALLOC_HEADER_SIZE` with the given `left_size`. -/
def initialize_fencepost (fp left_size : Nat) (s : AllocState) : Res Unit :=
  bnd (set_block_state fp FENCEPOST s) fun _ s =>
  bnd (set_block_size fp ALLOC_HEADER_SIZE s) fun _ s =>
  writeW (fp + 8) left_size s

/-- `insert_os_chunk` (myMalloc.c line 143): append `hdr` to the OS chunk
registry, but only while fewer than `MAX_OS_CHUNKS` chunks are
registered. -/
def insert_os_chunk (hdr : Nat) (s : AllocState) : Res Unit :=
  if s.numOsChunks < MAX_OS_CHUNKS then
    .ok ((), { s with osChunkList := s.osChunkList.set s.numOsChunks hdr,
                      numOsChunks := s.numOsChunks + 1 })
  else .ok ((), s)

/-- `insert_fenceposts` (myMalloc.c line 157): fencepost at each edge of a
raw chunk.  The size arithmetic is done in size_t, hence `sub64`. -/
def insert_fenceposts (raw_mem size : Nat) (s : AllocState) : Res Unit :=
  bnd (initialize_fencepost raw_mem ALLOC_HEADER_SIZE s) fun _ s =>
  initialize_fencepost (offNeg (raw_mem + size) ALLOC_HEADER_SIZE)
    (sub64 size (2 * ALLOC_HEADER_SIZE)) s

/-- `sbrk(size)`: extend the program break, returning its previous value.
The new words are fresh zeroed pages. -/
def sbrkM (size : Nat) (s : AllocState) : Res Nat :=
  .ok (s.brk, { s with brk := s.brk + size })

/-- `allocate_chunk` (myMalloc.c line 179): obtain `size` bytes from the
OS, install both fenceposts, and return the middle block. -/
def allocate_chunk (size : Nat) (s : AllocState) : Res Nat :=
  bnd (sbrkM size s) fun mem s =>
  bnd (insert_fenceposts mem size s) fun _ s =>
  let hdr := get_header_from_offset mem ALLOC_HEADER_SIZE
  bnd (set_block_state hdr UNALLOCATED s) fun _ s =>
  bnd (set_block_size hdr (sub64 size (2 * ALLOC_HEADER_SIZE)) s) fun _ s =>
  bnd (writeW (hdr + 8) ALLOC_HEADER_SIZE s) fun _ s =>
  .ok (hdr, s)

/-- The doubly-linked unlink pattern `x->next->prev = x->prev;
x->prev->next = x->next;` used at myMalloc.c lines 239-240, 266-267,
373-374 and 387-388.  In the states exercised in this file no write
aliases the fields of `x` itself, so reading both fields up front agrees
with the C statement order. -/
def unlinkNode (x : Nat) (s : AllocState) : Res Unit :=
  bnd (readW (x + 16) s) fun n s =>
  bnd (readW (x + 24) s) fun p s =>
  bnd (writeW (n + 24) p s) fun _ s =>
  writeW (p + 16) n s

/-- The catch-all walk of myMalloc.c lines 230-236: advance until a block
of at least `size` bytes is found; if the walk returns to the sentinel,
the C code sets `hdr = NULL` (here 0) and breaks. -/
def catchWalk : Nat → Nat → Nat → Nat → AllocState → Res Nat
  | 0, _, _, _, s => .error (.noFuel s)
  | fuel + 1, hdr, sent, size, s =>
    bnd (get_block_size hdr s) fun sz s =>
    if sz < size then
      bnd (readW (hdr + 16) s) fun h2 s =>
      if h2 = sent then .ok (0, s)
      else catchWalk fuel h2 sent size s
    else .ok (hdr, s)

/-- The size-class search loop of myMalloc.c lines 225-249, iterating `i`
over `cnt` remaining classes.  On a non-empty class the chosen block is
unlinked (even when the catch-all walk produced NULL: the C code falls
through to `hdr->next->prev = ...` unconditionally) and its former
neighbours are remembered.  Returns `some (hdr, oldPrev, oldNext)` or
`none` when every class was empty. -/
def searchLists : Nat → Nat → Nat → Nat → AllocState → Res (Option (Nat × Nat × Nat))
  | 0, _, _, _, s => .ok (none, s)
  | cnt + 1, i, size, fuel, s =>
    let sent := sentinelAddr i
    bnd (readW (sent + 24) s) fun sprev s =>
    if sprev ≠ sent then
      bnd (readW (sent + 16) s) fun hdr0 s =>
      bnd (if i = N_LISTS - 1 then catchWalk fuel hdr0 sent size s else .ok (hdr0, s))
        fun hdr s =>
      bnd (unlinkNode hdr s) fun _ s =>
      bnd (readW (hdr + 24) s) fun oldPrev s =>
      bnd (readW (hdr + 16) s) fun oldNext s =>
      bnd (writeW (hdr + 24) 0 s) fun _ s =>
      bnd (writeW (hdr + 16) 0 s) fun _ s =>
      .ok (some (hdr, oldPrev, oldNext), s)
    else searchLists cnt (i + 1) size fuel s

/-- Lines 318-322 of myMalloc.c, shared by the split and no-split paths:
update the right neighbour's boundary tag, mark the block ALLOCATED and
return the data pointer. -/
def allocReturn (hdr : Nat) (s : AllocState) : Res Nat :=
  bnd (get_right_header hdr s) fun right s =>
  bnd (get_block_size hdr s) fun hs s =>
  bnd (writeW (right + 8) hs s) fun _ s =>
  bnd (set_block_state hdr ALLOCATED s) fun _ s =>
  .ok (get_header_from_offset hdr ALLOC_HEADER_SIZE, s)

/-- Lines 288-322 of myMalloc.c: given the chosen block `hdr` (with its
remembered neighbours) and the needed block size `size`, split if the
spare space fits a header, place the residue on a free list (back in its
old position when its raw class index reaches `N_LISTS`, else at the head
of its class), and finish the allocation.  `extra` is a C int; in every
state exercised here the chosen block is at least as large as the
request, so the int arithmetic agrees with Nat arithmetic. -/
def finishAllocation (hdr oldPrev oldNext size : Nat) (s : AllocState) : Res Nat :=
  bnd (get_block_size hdr s) fun bs s =>
  let extra := bs - size
  if extra ≥ sizeofHeader then
    let tempHdr := hdr
    let hdr2 := get_header_from_offset hdr extra
    bnd (set_block_size tempHdr extra s) fun _ s =>
    bnd (set_block_state tempHdr UNALLOCATED s) fun _ s =>
    let loc := (extra - ALLOC_HEADER_SIZE) / 8 - 1
    bnd
      (if loc ≥ N_LISTS then
        bnd (writeW (tempHdr + 16) oldNext s) fun _ s =>
        bnd (writeW (tempHdr + 24) oldPrev s) fun _ s =>
        bnd (writeW (oldNext + 24) tempHdr s) fun _ s =>
        writeW (oldPrev + 16) tempHdr s
      else
        bnd (readW (sentinelAddr loc + 16) s) fun sn s =>
        bnd (writeW (tempHdr + 16) sn s) fun _ s =>
        bnd (writeW (sentinelAddr loc + 16) tempHdr s) fun _ s =>
        bnd (readW (tempHdr + 16) s) fun tn s =>
        bnd (writeW (tn + 24) tempHdr s) fun _ s =>
        writeW (tempHdr + 24) (sentinelAddr loc) s)
      fun _ s =>
    bnd (set_block_size hdr2 size s) fun _ s =>
    bnd (writeW (hdr2 + 8) extra s) fun _ s =>
    allocReturn hdr2 s
  else allocReturn hdr s

/-- The body of `allocate_object` (myMalloc.c lines 199-323), with the
restarting tail call of line 286 abstracted as `again`.  The request is
rounded up, the free lists are searched, and on failure a fresh chunk is
obtained, coalesced with the previous chunk when physically adjacent
(section 4.6 of the spec), pushed onto the catch-all list, and the
function restarts.  `size` is a C int; the runs in this file keep it far
below 2^31 where int and Nat arithmetic agree. -/
def allocGo (again : AllocState → Res Nat) (raw_size : Nat) (walkFuel : Nat)
    (s : AllocState) : Res Nat :=
  if raw_size = 0 then .ok (0, s)
  else
    let raw := if raw_size ≤ 8 then 16 else raw_size
    let size1 := if raw % 8 ≠ 0 then raw + (8 - raw % 8) else raw
    let size := size1 + ALLOC_HEADER_SIZE
    let smallest0 := (size - ALLOC_HEADER_SIZE) / 8 - 1
    let smallest := if smallest0 ≥ N_LISTS then N_LISTS - 1 else smallest0
    bnd (searchLists (N_LISTS - smallest) smallest size walkFuel s) fun r s =>
    match r with
    | some (hdr, oldPrev, oldNext) => finishAllocation hdr oldPrev oldNext size s
    | none =>
      bnd (allocate_chunk ARENA_SIZE s) fun hdr s =>
      bnd (get_right_header hdr s) fun rightPost s =>
      bnd (get_left_header hdr s) fun leftPost s =>
      bnd
        (if offNeg leftPost ALLOC_HEADER_SIZE = s.lastFencePost then
          let temp := s.lastFencePost
          bnd (get_left_header temp s) fun lastBlock s =>
          bnd (get_block_state lastBlock s) fun st s =>
          bnd
            (if st = UNALLOCATED then
              bnd (get_block_size lastBlock s) fun lbs s =>
              bnd (get_block_size hdr s) fun hs s =>
              bnd (set_block_size lastBlock
                    (lbs + 2 * ALLOC_HEADER_SIZE + hs) s) fun _ s =>
              bnd (unlinkNode lastBlock s) fun _ s =>
              .ok (lastBlock, s)
            else
              bnd (get_block_size hdr s) fun hs s =>
              bnd (set_block_state temp UNALLOCATED s) fun _ s =>
              bnd (set_block_size temp (hs + 2 * ALLOC_HEADER_SIZE) s) fun _ s =>
              .ok (temp, s))
            fun hdr s =>
          bnd (get_block_size hdr s) fun hs2 s =>
          bnd (writeW (rightPost + 8) hs2 s) fun _ s =>
          .ok (hdr, s)
        else
          -- lines 276-277: osChunkList[numOsChunks] = leftPost;
          -- numOsChunks++;  (no capacity check, unlike insert_os_chunk)
          .ok (hdr, { s with osChunkList := s.osChunkList.set s.numOsChunks leftPost,
                             numOsChunks := s.numOsChunks + 1 }))
        fun hdr s =>
      let sent := sentinelAddr (N_LISTS - 1)
      bnd (readW (sent + 16) s) fun sn s =>
      bnd (writeW (sn + 24) hdr s) fun _ s =>
      bnd (readW (sent + 16) s) fun sn2 s =>
      bnd (writeW (hdr + 16) sn2 s) fun _ s =>
      bnd (writeW (sent + 16) hdr s) fun _ s =>
      bnd (writeW (hdr + 24) sent s) fun _ s =>
      let s := { s with lastFencePost := rightPost }
      again s

/-- `allocate_object` (myMalloc.c line 197): `allocGo`, with the C
recursion of line 286 bounded by `fuel`. -/
def allocate_object : Nat → Nat → AllocState → Res Nat
  | 0, raw_size, s => allocGo (fun s => .error (.noFuel s)) raw_size 0 s
  | fuel + 1, raw_size, s =>
    allocGo (allocate_object fuel raw_size) raw_size (fuel + 1) s

/-- `deallocate_object` (myMalloc.c line 342): free the block behind `p`,
coalescing with an UNALLOCATED right and then left neighbour, and insert
the result into a free list — in the former catch-all position of the
left (then right) coalesced neighbour when that neighbour's block size
exceeds `(N_LISTS - 1) * 8 + ALLOC_HEADER_SIZE`, else at the head of its
size class.  A double free prints on stdout (`printf`) and fails the
assertion; freeing a fencepost returns silently. -/
def deallocate_object (p : Nat) (s : AllocState) : Res Unit :=
  if p = 0 then .ok ((), s)
  else
    let hdr := ptr_to_header p
    bnd (get_block_state hdr s) fun st s =>
    if st = UNALLOCATED then
      bnd (fdWrite 1 "Double Free Detected\n" s) fun _ s =>
      cAssertFail s
    else if st = FENCEPOST then .ok ((), s)
    else
      bnd (set_block_state hdr UNALLOCATED s) fun _ s =>
      bnd (get_right_header hdr s) fun right s =>
      bnd (get_left_header hdr s) fun left s =>
      bnd (get_block_state right s) fun rst s =>
      bnd
        (if rst = UNALLOCATED then
          bnd (get_block_size hdr s) fun hs s =>
          bnd (get_block_size right s) fun rs s =>
          bnd (set_block_size hdr (hs + rs) s) fun _ s =>
          bnd (unlinkNode right s) fun _ s =>
          bnd (get_right_header right s) fun temp s =>
          bnd (get_block_size hdr s) fun hs2 s =>
          bnd (writeW (temp + 8) hs2 s) fun _ s =>
          bnd (get_block_size right s) fun rs2 s =>
          .ok (decide (rs2 > (N_LISTS - 1) * 8 + ALLOC_HEADER_SIZE), s)
        else .ok (false, s))
        fun coalR s =>
      bnd (get_block_state left s) fun lst s =>
      bnd
        (if lst = UNALLOCATED then
          bnd (unlinkNode left s) fun _ s =>
          bnd (get_block_size left s) fun ls s =>
          let cl := decide (ls > (N_LISTS - 1) * 8 + ALLOC_HEADER_SIZE)
          bnd (get_block_size hdr s) fun hs s =>
          bnd (set_block_size left (ls + hs) s) fun _ s =>
          bnd (get_right_header left s) fun r2 s =>
          bnd (get_block_size left s) fun ls2 s =>
          bnd (writeW (r2 + 8) ls2 s) fun _ s =>
          .ok ((cl, left, r2), s)
        else .ok ((false, hdr, right), s))
        fun cres s =>
      let coalL := cres.1
      let hdr2 := cres.2.1
      let right2 := cres.2.2
      if coalL then
        bnd (readW (hdr2 + 16) s) fun ln s =>
        bnd (readW (hdr2 + 24) s) fun lp s =>
        bnd (writeW (ln + 24) hdr2 s) fun _ s =>
        bnd (writeW (lp + 16) hdr2 s) fun _ s =>
        bnd (writeW (hdr2 + 16) ln s) fun _ s =>
        writeW (hdr2 + 24) lp s
      else if coalR then
        bnd (readW (right2 + 16) s) fun rn s =>
        bnd (readW (right2 + 24) s) fun rp s =>
        bnd (writeW (rn + 24) hdr2 s) fun _ s =>
        bnd (writeW (rp + 16) hdr2 s) fun _ s =>
        bnd (writeW (hdr2 + 16) rn s) fun _ s =>
        writeW (hdr2 + 24) rp s
      else
        bnd (get_block_size hdr2 s) fun hs s =>
        let listLoc0 := (hs - ALLOC_HEADER_SIZE) / 8 - 1
        let listLoc := if listLoc0 ≥ N_LISTS then N_LISTS - 1 else listLoc0
        let sent := sentinelAddr listLoc
        bnd (writeW (hdr2 + 24) sent s) fun _ s =>
        bnd (readW (sent + 16) s) fun sn s =>
        bnd (writeW (hdr2 + 16) sn s) fun _ s =>
        bnd (writeW (sent + 16) hdr2 s) fun _ s =>
        bnd (readW (hdr2 + 16) s) fun hn s =>
        writeW (hn + 24) hdr2 s

/-- The body of Floyd's tortoise-and-hare (myMalloc.c lines 435-441): the
loop guard `fast != freelist` is tested first, then `slow == fast`. -/
def floydLoop : Nat → Nat → Nat → Nat → AllocState → Res (Option Nat)
  | fuel, slow, fast, freelist, s =>
    if fast = freelist then .ok (none, s)
    else if slow = fast then .ok (some slow, s)
    else match fuel with
      | 0 => .error (.noFuel s)
      | fuel + 1 =>
        bnd (readW (slow + 16) s) fun slow2 s =>
        bnd (readW (fast + 16) s) fun f1 s =>
        bnd (readW (f1 + 16) s) fun fast2 s =>
        floydLoop fuel slow2 fast2 freelist s

/-- `detect_cycles` (myMalloc.c line 432) over the `cnt` lists starting at
index `i`. -/
def detect_cycles : Nat → Nat → Nat → AllocState → Res (Option Nat)
  | _, 0, _, s => .ok (none, s)
  | fuel, cnt + 1, i, s =>
    let fl := sentinelAddr i
    bnd (readW (fl + 16) s) fun s1 s =>
    bnd (readW (s1 + 16) s) fun f1 s =>
    bnd (floydLoop fuel s1 f1 fl s) fun r s =>
    match r with
    | some x => .ok (some x, s)
    | none => detect_cycles fuel cnt (i + 1) s

/-- The inner loop of `verify_pointers` (myMalloc.c lines 456-460). -/
def vpLoop : Nat → Nat → Nat → AllocState → Res (Option Nat)
  | fuel, cur, freelist, s =>
    if cur = freelist then .ok (none, s)
    else match fuel with
      | 0 => .error (.noFuel s)
      | fuel + 1 =>
        bnd (readW (cur + 16) s) fun n s =>
        bnd (readW (cur + 24) s) fun p s =>
        bnd (readW (n + 24) s) fun np s =>
        bnd (readW (p + 16) s) fun pn s =>
        if np ≠ cur ∨ pn ≠ cur then .ok (some cur, s)
        else vpLoop fuel n freelist s

/-- `verify_pointers` (myMalloc.c line 453) over the `cnt` lists starting
at index `i`. -/
def verify_pointers : Nat → Nat → Nat → AllocState → Res (Option Nat)
  | _, 0, _, s => .ok (none, s)
  | fuel, cnt + 1, i, s =>
    let fl := sentinelAddr i
    bnd (readW (fl + 16) s) fun c0 s =>
    bnd (vpLoop fuel c0 fl s) fun r s =>
    match r with
    | some x => .ok (some x, s)
    | none => verify_pointers fuel cnt (i + 1) s

/-- `verify_freelist` (myMalloc.c line 471).  On failure a diagnostic is
printed on stderr; the dump routines of printing.c (not in src/) are
modelled from the spec as opaque stderr output. -/
def verify_freelist (fuel : Nat) (s : AllocState) : Res Bool :=
  bnd (detect_cycles fuel N_LISTS 0 s) fun cyc s =>
  match cyc with
  | some c =>
    bnd (fdWrite 2 "Cycle Detected\n" s) fun _ s =>
    bnd (readW (c + 16) s) fun _ s =>
    bnd (fdWrite 2 "print_sublist\n" s) fun _ s =>
    .ok (false, s)
  | none =>
    bnd (verify_pointers fuel N_LISTS 0 s) fun inv s =>
    match inv with
    | some _ =>
      bnd (fdWrite 2 "Invalid pointers\n" s) fun _ s =>
      bnd (fdWrite 2 "print_object\n" s) fun _ s =>
      .ok (false, s)
    | none => .ok (true, s)

/-- The for-loop of `verify_chunk` (myMalloc.c line 504): its guard
`get_block_state(chunk) != FENCEPOST` is evaluated before the first
iteration, so the loop exits at once when entered at a fencepost. -/
def vcLoop : Nat → Nat → AllocState → Res (Option Nat)
  | 0, _, s => .error (.noFuel s)
  | fuel + 1, chunk, s =>
    bnd (get_block_state chunk s) fun st s =>
    if st ≠ FENCEPOST then
      bnd (get_block_size chunk s) fun sz s =>
      bnd (get_right_header chunk s) fun r s =>
      bnd (readW (r + 8) s) fun ls s =>
      if sz ≠ ls then
        bnd (fdWrite 2 "Invalid sizes\n" s) fun _ s =>
        bnd (fdWrite 2 "print_object\n" s) fun _ s =>
        .ok (some chunk, s)
      else
        bnd (get_right_header chunk s) fun r2 s =>
        vcLoop fuel r2 s
    else .ok (none, s)

/-- `verify_chunk` (myMalloc.c line 497). -/
def verify_chunk (fuel chunk : Nat) (s : AllocState) : Res (Option Nat) :=
  bnd (get_block_state chunk s) fun st s =>
  if st ≠ FENCEPOST then
    bnd (fdWrite 2 "Invalid fencepost\n" s) fun _ s =>
    bnd (fdWrite 2 "print_object\n" s) fun _ s =>
    .ok (some chunk, s)
  else vcLoop fuel chunk s

/-- The loop of `verify_tags` (myMalloc.c lines 522-527) over the `cnt`
registered chunks starting at index `idx`.  The C function has return
type bool but returns the raw pointer `invalid` (true for every non-null
pointer) on failure and `NULL` (false) when every chunk checks out. -/
def vtLoop : Nat → Nat → Nat → AllocState → Res Bool
  | _, 0, _, s => .ok (false, s)
  | fuel, cnt + 1, idx, s =>
    let chunk := s.osChunkList.getD idx 0
    bnd (verify_chunk fuel chunk s) fun inv s =>
    match inv with
    | some _ => .ok (true, s)
    | none => vtLoop fuel cnt (idx + 1) s

/-- `verify_tags` (myMalloc.c line 521). -/
def verify_tags (fuel : Nat) (s : AllocState) : Res Bool :=
  vtLoop fuel s.numOsChunks 0 s

/-- `verify` (myMalloc.c line 598): `verify_freelist() && verify_tags()`
with C short-circuit evaluation. -/
def verify (fuel : Nat) (s : AllocState) : Res Bool :=
  bnd (verify_freelist fuel s) fun vf s =>
  if vf then verify_tags fuel s else .ok (false, s)

/-- The sentinel-initialisation loop of `init` (myMalloc.c lines
557-561). -/
def sentinelInitLoop : Nat → Nat → AllocState → Res Unit
  | 0, _, s => .ok ((), s)
  | cnt + 1, i, s =>
    let fl := sentinelAddr i
    bnd (writeW (fl + 16) fl s) fun _ s =>
    bnd (writeW (fl + 24) fl s) fun _ s =>
    sentinelInitLoop cnt (i + 1) s

/-- `init` (myMalloc.c line 535): acquire the first chunk, register its
left fencepost, record `lastFencePost` and `base`, self-link every
sentinel and seed the catch-all list with the first block.  The pthread
mutex is not modelled (single-threaded embedding). -/
def init (s : AllocState) : Res Unit :=
  bnd (allocate_chunk ARENA_SIZE s) fun block s =>
  let prevFencePost := offNeg block ALLOC_HEADER_SIZE
  bnd (insert_os_chunk prevFencePost s) fun _ s =>
  bnd (get_block_size block s) fun bs s =>
  let s := { s with lastFencePost := get_header_from_offset block bs }
  let s := { s with basePtr := offNeg block ALLOC_HEADER_SIZE }
  bnd (sentinelInitLoop N_LISTS 0 s) fun _ s =>
  let fl := sentinelAddr (N_LISTS - 1)
  bnd (writeW (fl + 16) block s) fun _ s =>
  bnd (writeW (fl + 24) block s) fun _ s =>
  bnd (writeW (block + 16) fl s) fun _ s =>
  writeW (block + 24) fl s

/-- `memset` inner loop: `cnt` words remain. -/
def msLoop : Nat → Nat → Nat → AllocState → Res Unit
  | 0, _, _, s => .ok ((), s)
  | cnt + 1, a, v, s =>
    bnd (writeW a v s) fun _ s =>
    msLoop cnt (a + 8) v s

/-- `memset(p, v, len)` over `len` bytes (all uses in this file have `len`
a multiple of the word size), returning `p` as C memset does. -/
def memsetW (p v len : Nat) (s : AllocState) : Res Nat :=
  bnd (msLoop (len / 8) p v s) fun _ s => .ok (p, s)

/-- `memcpy` inner loop: `cnt` words remain. -/
def mcLoop : Nat → Nat → Nat → AllocState → Res Unit
  | 0, _, _, s => .ok ((), s)
  | cnt + 1, d, sr, s =>
    bnd (readW sr s) fun w s =>
    bnd (writeW d w s) fun _ s =>
    mcLoop cnt (d + 8) (sr + 8) s

/-- `memcpy(d, sr, len)` over `len` bytes (all uses in this file have
`len` a multiple of the word size). -/
def memcpyW (d sr len : Nat) (s : AllocState) : Res Unit :=
  mcLoop (len / 8) d sr s

/-- `my_malloc` (myMalloc.c line 574); the mutex is not modelled. -/
def my_malloc (fuel size : Nat) (s : AllocState) : Res Nat :=
  allocate_object fuel size s

/-- `my_free` (myMalloc.c line 592); the mutex is not modelled. -/
def my_free (p : Nat) (s : AllocState) : Res Unit := deallocate_object p s

/-- `my_calloc` (myMalloc.c line 581):
`memset(my_malloc(size * nmemb), 0, size * nmemb)`.  The products are
size_t multiplications and wrap modulo `2 ^ 64`. -/
def my_calloc (fuel nmemb size : Nat) (s : AllocState) : Res Nat :=
  bnd (my_malloc fuel (size * nmemb % 2 ^ 64) s) fun p s =>
  memsetW p 0 (size * nmemb % 2 ^ 64) s

/-- `my_realloc` (myMalloc.c line 585): allocate `size` bytes, copy `size`
bytes from `ptr` (regardless of the old block's size), free `ptr`, return
the new pointer. -/
def my_realloc (fuel ptr size : Nat) (s : AllocState) : Res Nat :=
  bnd (my_malloc fuel size s) fun mem s =>
  bnd (memcpyW mem ptr size s) fun _ s =>
  bnd (my_free ptr s) fun _ s =>
  .ok (mem, s)

/-- The machine before the process starts: empty memory (static storage
zero-initialised), the break at `HEAP_BASE`, and zeroed globals. -/
def blankState : AllocState :=
  { writes := [], brk := HEAP_BASE, numOsChunks := 0,
    osChunkList := List.replicate MAX_OS_CHUNKS 0,
    lastFencePost := 0, basePtr := 0, log := [] }

/-- Fuel ample for every concrete run in this file. -/
def FUEL : Nat := 100

/-- The value a run produced, when it neither faulted nor aborted. -/
def resultVal {α : Type} : Res α → Option α
  | .ok (a, _) => some a
  | .error _ => none

/-- The state a run ended in, when it neither faulted nor aborted. -/
def resultState {α : Type} : Res α → Option AllocState
  | .ok (_, s) => some s
  | .error _ => none

/-- The address of the invalid access, when the run faulted. -/
def oobAddr {α : Type} : Res α → Option Nat
  | .error (.oob a _) => some a
  | _ => none

/-- The output log at the abort, when the run failed an assertion. -/
def abortLog {α : Type} : Res α → Option (List (Nat × String))
  | .error (.assertFail s) => some s.log
  | _ => none

/-- The memory of the state at the abort, when the run failed an
assertion. -/
def abortWrites {α : Type} : Res α → Option (List (Nat × Nat))
  | .error (.assertFail s) => some s.writes
  | _ => none

/-- `numOsChunks` of the final state of a successful run. -/
def numOsOf {α : Type} (r : Res α) : Option Nat :=
  (resultState r).map (·.numOsChunks)

/-- The state after a successful run, defaulting to `blankState` (never
used on a failing run in this file). -/
def stateOf {α : Type} (r : Res α) : AllocState :=
  (resultState r).getD blankState

/-- The allocator state right after `init` ran at process start. -/
def initState : AllocState := stateOf (init blankState)

/-- Following the spec's words (section 4.7 / claim C1), independently of
the C verifier: walk one free list from `cur` towards the sentinel `fl`,
checking `node.next.prev == node` and `node.prev.next == node` at every
node; `false` when the walk does not reach the sentinel within `fuel`
steps (a cycle). -/
def specListOk : Nat → AllocState → Nat → Nat → Bool
  | 0, _, _, _ => false
  | fuel + 1, s, fl, cur =>
    if cur = fl then true
    else
      let n := memAt s (cur + 16)
      let p := memAt s (cur + 24)
      (memAt s (n + 24) == cur) && (memAt s (p + 16) == cur) &&
        specListOk fuel s fl n

/-- Following the spec's words: the free-list invariants of claim C1 (no
cycle, symmetric prev/next links) hold for every size class. -/
def spec_freelist_ok (fuel : Nat) (s : AllocState) : Bool :=
  (List.range N_LISTS).all fun i =>
    specListOk fuel s (sentinelAddr i) (memAt s (sentinelAddr i + 16))

/-- Following the spec's words (claim C1): walk rightward from block `b`,
checking `block.size == right_neighbor(block).left_size` at each block,
stopping once the right neighbour is a FENCEPOST. -/
def specChunkWalk : Nat → AllocState → Nat → Bool
  | 0, _, _ => false
  | fuel + 1, s, b =>
    let w := memAt s b
    let sz := w - w % 8
    (memAt s (b + sz + 8) == sz) &&
      (if memAt s (b + sz) % 8 == FENCEPOST then true else specChunkWalk fuel s (b + sz))

/-- Following the spec's words: the boundary-tag invariants of claim C1
hold — each registered chunk starts at a FENCEPOST and the rightward walk
from it verifies every boundary tag. -/
def spec_tags_ok (fuel : Nat) (s : AllocState) : Bool :=
  (List.range s.numOsChunks).all fun i =>
    let c := s.osChunkList.getD i 0
    (memAt s c % 8 == FENCEPOST) && specChunkWalk fuel s c

/-!
Concrete scenario states, each obtained by running the embedded public
operations from `initState`.  The initial chunk occupies bytes
4096..8191: left fencepost 4096, first free block 4112 (size 4064, in the
catch-all list 58 whose sentinel is at 2880), right fencepost 8176.
-/

/-- After `malloc(3000)` from the initial state: the 4064-byte block was
split into a catch-all residue 4112 (size 1048) and an allocated block
5160 (size 3016, data pointer 5176). -/
def mState1 : AllocState := stateOf (allocate_object FUEL 3000 initState)

/-- After `malloc(24)` from the initial state: catch-all residue 4112
(size 4024) and allocated block 8136 (size 40, data pointer 8152). -/
def aState1 : AllocState := stateOf (allocate_object FUEL 24 initState)

/-- After `free(8152)` in `aState1`: the block coalesces with the residue
on its left, restoring a single 4064-byte free block at 4112. -/
def aState2 : AllocState := stateOf (deallocate_object 8152 aState1)

/-- After `malloc(1000)` from the initial state: residue 4112 (size 3048),
allocated block 7160 (size 1016, data pointer 7176). -/
def bState1 : AllocState := stateOf (allocate_object FUEL 1000 initState)

/-- After a second `malloc(1000)`: residue 4112 (size 2032), allocated
block 6144 (size 1016, data pointer 6160), then block 7160. -/
def bState2 : AllocState := stateOf (allocate_object FUEL 1000 bState1)

/-- After `free(7176)` in `bState2`: block 7160 (size 1016) has allocated
neighbours on both sides, so it is pushed at the head of the catch-all:
the list is sentinel → 7160 → 4112 (size 2032). -/
def bState3 : AllocState := stateOf (deallocate_object 7176 bState2)

/-- After `malloc(1528)` in `bState3` (needed block size 1544): first fit
skips 7160 (1016 bytes) and takes 4112 (2032 bytes); the split leaves a
residue of exactly 488 bytes. -/
def bState4 : AllocState := stateOf (allocate_object FUEL 1528 bState3)

/-- After `malloc(1520)` in `bState3` (needed block size 1536): the same
chosen block, with a residue of 496 bytes. -/
def bState5 : AllocState := stateOf (allocate_object FUEL 1520 bState3)

/-- The state in the middle of `malloc(1520)` (or `malloc(1528)`: the walk
writes nothing, so the search state is the same) on `bState3`, right after
the free-list search has chosen and unlinked block 4112 (word 2032,
state UNALLOCATED) remembering prev 7160 and next sentinel 2880, and right
before the split decision of myMalloc.c lines 288-322. -/
def c5midState : AllocState := stateOf (searchLists 1 58 1536 FUEL bState3)

/-- After `malloc(1000)` in `mState1`: the catch-all residue 4112 (1048
bytes) is split into a 32-byte free block 4112 (exact class 1) and an
allocated block 4144 (size 1016, data pointer 4160). -/
def dState2 : AllocState := stateOf (allocate_object FUEL 1000 mState1)

/-- After `free(5176)` in `dState2`: block 5160 (size 3016) has an
allocated left neighbour and the right fencepost to its right, so it is
pushed at the head of the catch-all.  Layout: free 4112 (32), allocated
4144 (1016), free 5160 (3016), fencepost 8176. -/
def dState3 : AllocState := stateOf (deallocate_object 5176 dState2)

/-- The sentinel self-links written by `init`, used to craft a state whose
free lists are all empty. -/
def sentinelSelfLinks : List (Nat × Nat) :=
  (List.range N_LISTS).foldr (fun i acc =>
    (sentinelAddr i + 16, sentinelAddr i) :: (sentinelAddr i + 24, sentinelAddr i) :: acc) []

/-- An allocator state whose OS-chunk registry is full
(`numOsChunks = MAX_OS_CHUNKS`), whose free lists are all empty, and whose
`lastFencePost` does not border the program break — the situation of a
growth request whose fresh chunk is not adjacent to the previous one
(reachable in the C program when other code has moved the break between
allocations, the case lines 275-278 of myMalloc.c exist to handle). -/
def regFullState : AllocState :=
  { writes := sentinelSelfLinks, brk := HEAP_BASE, numOsChunks := MAX_OS_CHUNKS,
    osChunkList := List.replicate MAX_OS_CHUNKS 4096,
    lastFencePost := 0, basePtr := 0, log := [] }

/-- After `my_malloc FUEL 32` in `aState1`: a fresh 48-byte block 8088
(data pointer 8104) split off the catch-all residue. -/
def rState2 : AllocState := stateOf (my_malloc FUEL 32 aState1)

/-- After `memcpy(8104, 8152, 32)` in `rState2`: four words copied. -/
def rState3 : AllocState := stateOf (memcpyW 8104 8152 32 rState2)

/-- After `free(8152)` in `rState3`. -/
def rState4 : AllocState := stateOf (my_free 8152 rState3)

/-- Following the spec's words (claim C8): walk the blocks of a chunk
rightward from `b` (the block after the left fencepost), and check that no
block and its right neighbour are both UNALLOCATED; the walk ends at the
right fencepost. -/
def specNoAdjWalk : Nat → AllocState → Nat → Bool
  | 0, _, _ => false
  | fuel + 1, s, b =>
    let w := memAt s b
    if w % 8 == FENCEPOST then true
    else
      let r := b + (w - w % 8)
      (!(w % 8 == UNALLOCATED && memAt s r % 8 == UNALLOCATED)) &&
        specNoAdjWalk fuel s r

/-- Following the spec's words: in state `s` no two adjacent blocks within
any registered OS chunk are both UNALLOCATED. -/
def spec_no_adjacent_free (fuel : Nat) (s : AllocState) : Bool :=
  (List.range s.numOsChunks).all fun i =>
    specNoAdjWalk fuel s (s.osChunkList.getD i 0 + ALLOC_HEADER_SIZE)

/-!
The 23-operation trace for claim C8.  It drives the splice bug of claim C6
into silent memory corruption instead of a crash: an allocated block `A2`
at 8048 is created by splitting, so its data words still hold the
next/prev pointers (8112 and sentinel 1) written when a block at 8048 was
free in an earlier epoch; an allocated block `T` is then placed at
8112 + 24 = 8136 with a free block `F` at 8080 to its left; finally
`free(6544)` coalesces [L free 120 | B allocated 1016 | R free 504,
catch-all] and splices through the recomputed right neighbour `A2`,
writing the merged block address 6408 over `T`'s header word — turning
`T` UNALLOCATED next to the UNALLOCATED `F`.
-/

/-- Six 16-byte allocations carve blocks 8144, 8112, 8080, 8048, 8016,
7984 (data pointers 8160, 8128, 8096, 8064, 8032, 8000). -/
def gState6 : AllocState :=
  stateOf (allocate_object FUEL 16 (stateOf (allocate_object FUEL 16
    (stateOf (allocate_object FUEL 16 (stateOf (allocate_object FUEL 16
      (stateOf (allocate_object FUEL 16 (stateOf
        (allocate_object FUEL 16 initState)))))))))))

/-- `free(8128)`: block 8112 (`X`) enters list 1. -/
def gState7 : AllocState := stateOf (deallocate_object 8128 gState6)

/-- `free(8064)`: block 8048 (`Z`) pushed at the head of list 1, writing
`Z.next = 8112` and `Z.prev = sentinel 1` into words 8064 and 8072. -/
def gState8 : AllocState := stateOf (deallocate_object 8064 gState7)

/-- `free(8032)`: block 8016 coalesces with `Z`; the unlink touches only
`Z`'s neighbours, so words 8064 and 8072 keep their stale values. -/
def gState9 : AllocState := stateOf (deallocate_object 8032 gState8)

/-- `malloc(16)` takes `X` (8112) from list 1. -/
def gState10 : AllocState := stateOf (allocate_object FUEL 16 gState9)

/-- `malloc(16)` splits the 64-byte block 8016: the allocated right part
lands exactly at 8048 — `A2`, whose data words 8064/8072 still hold the
stale 8112 and sentinel-1 pointers (the split writes only the header). -/
def gState11 : AllocState := stateOf (allocate_object FUEL 16 gState10)

/-- `free(8000)`: block 7984 coalesces left into the big residue and right
into the list-1 residue, restoring one free block 4112 (3936 bytes). -/
def gState12 : AllocState := stateOf (deallocate_object 8000 gState11)

/-- `free(8096)`, `free(8128)`, `free(8160)`: blocks 8080, 8112, 8144
merge into one 96-byte free block at 8080. -/
def gState15 : AllocState :=
  stateOf (deallocate_object 8160 (stateOf (deallocate_object 8128
    (stateOf (deallocate_object 8096 gState12)))))

/-- `malloc(24)` splits the 96-byte block: free residue `F` at 8080 (56
bytes) and allocated `T` at 8136 = 8112 + 24 — the address the stale
pointer in `A2` reaches. -/
def gState16 : AllocState := stateOf (allocate_object FUEL 24 gState15)

/-- `malloc(488)`, `malloc(1000)`, `malloc(104)`, `malloc(104)` carve
`R` = 7544 (504 bytes), `B` = 6528 (1016), `L` = 6408 (120) and a spacer
6288 (120) from the catch-all residue. -/
def gState20 : AllocState :=
  stateOf (allocate_object FUEL 104 (stateOf (allocate_object FUEL 104
    (stateOf (allocate_object FUEL 1000 (stateOf
      (allocate_object FUEL 488 gState16)))))))

/-- `free(7560)` and `free(6424)`: `R` joins the catch-all, `L` list 12.
Layout: free 4112 (2176) / spacer 6288 / free `L` 6408 (120) / `B` 6528
(1016, allocated) / free `R` 7544 (504) / `A2` 8048 / free `F` 8080 (56)
/ `T` 8136 (40, allocated) / fencepost. -/
def gState22 : AllocState :=
  stateOf (deallocate_object 6424 (stateOf (deallocate_object 7560 gState20)))

/-- The final `free(6544)`: `B` coalesces with `R` (catch-all, `coalR`)
and `L` (small, `coalL` false); the splice reads the link words of the
recomputed right neighbour `A2` — the stale 8112 and sentinel-1 — and
writes 6408 over word 8136, `T`'s header. -/
def gState23 : AllocState := stateOf (deallocate_object 6544 gState22)

/-!
Theorems settling the claims.
-/

/-- Computation rule for `bnd` on a successful result. -/
theorem bnd_ok {α β : Type} (a : α) (s : AllocState) (k : α → AllocState → Res β) :
    bnd (.ok (a, s)) k = k a s := rfl

/-- Computation rule for `bnd` on a fault. -/
theorem bnd_err {α β : Type} (e : Fault) (k : α → AllocState → Res β) :
    bnd (.error e : Res α) k = .error e := rfl

/-- A heap address below the break is mapped. -/
theorem mapped_brk {w : List (Nat × Nat)} {brk n l b : Nat} {o : List Nat}
    {lg : List (Nat × String)} {a : Nat}
    (h : a % 8 = 0 ∧ 4096 ≤ a ∧ a + 8 ≤ brk) : mapped ⟨w, brk, n, o, l, b, lg⟩ a :=
  ⟨h.1, Or.inr ⟨h.2.1, h.2.2⟩⟩

/-- `readW` on a mapped address returns the stored word. -/
theorem readW_ok {s : AllocState} {a : Nat} (hm : mapped s a) :
    readW a s = .ok (lookupW s.writes a, s) := by
  unfold readW; rw [if_pos hm]

/-- `writeW` on a mapped address records the write. -/
theorem writeW_ok {s : AllocState} {a : Nat} (v : Nat) (hm : mapped s a) :
    writeW a v s = .ok ((), { s with writes := (a, v) :: s.writes }) := by
  unfold writeW; rw [if_pos hm]

/-- The most recent write to an address wins. -/
theorem lookupW_head (w : List (Nat × Nat)) (a v : Nat) :
    lookupW ((a, v) :: w) a = v := by simp [lookupW]

/-- A write to a different address is skipped. -/
theorem lookupW_skip (w : List (Nat × Nat)) (a b v : Nat) (h : a ≠ b) :
    lookupW ((b, v) :: w) a = lookupW w a := by simp [lookupW, h]

/-- Reading memory after one more write. -/
theorem memAt_cons (s : AllocState) (a v x : Nat) :
    memAt { s with writes := (a, v) :: s.writes } x = if x = a then v else memAt s x := rfl

/-- Mappedness only depends on the program break, so it survives any
change to the write log. -/
theorem mapped_w {s : AllocState} {L : List (Nat × Nat)} {a : Nat} (h : mapped s a) :
    mapped { s with writes := L } a := h

/-- After a successful `msLoop`, every word in the written range holds `v`
and every word below the range is unchanged. -/
theorem msLoop_sets : ∀ (cnt a v : Nat) (s s' : AllocState),
    msLoop cnt a v s = .ok ((), s') →
    (∀ k, k < cnt → memAt s' (a + 8 * k) = v) ∧
    (∀ x, x < a → memAt s' x = memAt s x) := by
  intro cnt
  induction cnt with
  | zero =>
    intro a v s s' h
    unfold msLoop at h
    injection h with h
    injection h with _ h
    subst h
    exact ⟨fun k hk => absurd hk (by omega), fun x _ => rfl⟩
  | succ cnt ih =>
    intro a v s s' h
    unfold msLoop at h
    unfold writeW at h
    split at h
    case isFalse => rw [bnd_err] at h; exact absurd h (by simp)
    case isTrue hm =>
      rw [bnd_ok] at h
      obtain ⟨ih1, ih2⟩ := ih (a + 8) v _ s' h
      constructor
      · intro k hk
        match k with
        | 0 =>
          have := ih2 a (by omega)
          simpa [memAt_cons] using this
        | j + 1 =>
          have := ih1 j (by omega)
          have harith : a + 8 * (j + 1) = a + 8 + 8 * j := by omega
          rw [harith]
          exact this
      · intro x hx
        have := ih2 x (by omega)
        rw [this, memAt_cons, if_neg (by omega)]

/-- After a successful `mcLoop` over disjoint ranges, every destination
word equals the corresponding source word in the starting state, and every
word outside the destination range is unchanged. -/
theorem mcLoop_copies : ∀ (cnt d sr : Nat) (s s' : AllocState),
    (d + 8 * cnt ≤ sr ∨ sr + 8 * cnt ≤ d) →
    mcLoop cnt d sr s = .ok ((), s') →
    (∀ k, k < cnt → memAt s' (d + 8 * k) = memAt s (sr + 8 * k)) ∧
    (∀ x, x < d ∨ d + 8 * cnt ≤ x → memAt s' x = memAt s x) := by
  intro cnt
  induction cnt with
  | zero =>
    intro d sr s s' _ h
    unfold mcLoop at h
    injection h with h
    injection h with _ h
    subst h
    exact ⟨fun k hk => absurd hk (by omega), fun x _ => rfl⟩
  | succ cnt ih =>
    intro d sr s s' hdisj h
    unfold mcLoop at h
    unfold readW at h
    split at h
    case isFalse => rw [bnd_err] at h; exact absurd h (by simp)
    case isTrue hm1 =>
      rw [bnd_ok] at h
      unfold writeW at h
      split at h
      case isFalse => rw [bnd_err] at h; exact absurd h (by simp)
      case isTrue hm2 =>
        rw [bnd_ok] at h
        obtain ⟨ih1, ih2⟩ := ih (d + 8) (sr + 8) _ s' (by omega) h
        constructor
        · intro k hk
          match k with
          | 0 =>
            have hfr := ih2 d (by omega)
            simp only [Nat.mul_zero, Nat.add_zero]
            rw [hfr, memAt_cons, if_pos rfl]
            rfl
          | j + 1 =>
            have := ih1 j (by omega)
            have e1 : d + 8 * (j + 1) = d + 8 + 8 * j := by omega
            have e2 : sr + 8 * (j + 1) = sr + 8 + 8 * j := by omega
            rw [e1, e2, this, memAt_cons, if_neg (by omega)]
        · intro x hx
          have := ih2 x (by omega)
          rw [this, memAt_cons, if_neg (by omega)]

/-- C1: the claim says `verify()` returns true iff the free-list and
boundary-tag invariants hold, and in particular returns true whenever they
all hold.  The code violates this: on the pristine initial heap — where
the invariants hold (`spec_freelist_ok`, `spec_tags_ok`, written from the
spec's words) and `verify_freelist` itself agrees — `verify()` returns
false, because `verify_tags` (myMalloc.c lines 521-530) returns the
pointer `invalid` (true) on failure and `NULL` (false) on success, the
opposite of its own documented contract "true if the boundary tags are
valid". -/
theorem C1_verify_false_on_valid_heap :
    spec_freelist_ok 70 initState = true ∧
    spec_tags_ok 70 initState = true ∧
    resultVal (verify_freelist FUEL initState) = some true ∧
    resultVal (verify_tags FUEL initState) = some false ∧
    resultVal (verify FUEL initState) = some false :=
  ⟨rfl, rfl, rfl, rfl, rfl⟩

/-- C2: the claim says that when the size-class search reaches a non-empty
catch-all containing no block of at least the needed size, the class is
treated as empty and the growth path is reached without dereferencing an
invalid block.  The code violates this: after `malloc(3000)` from the
initial state the catch-all holds exactly one block (4112, size 1048); a
second `malloc(3000)` (needed size 3016) walks the list, sets `hdr =
NULL`, falls through to `hdr->next->prev = hdr->prev` (myMalloc.c line
239) and dereferences address 16 = `NULL->next` instead of growing. -/
theorem C2_catchall_search_null_deref :
    resultVal (allocate_object FUEL 3000 initState) = some 5176 ∧
    memAt mState1 (sentinelAddr 58 + 16) = 4112 ∧
    memAt mState1 (sentinelAddr 58 + 24) = 4112 ∧
    memAt mState1 4112 = 1048 ∧
    memAt mState1 (4112 + 16) = sentinelAddr 58 ∧
    oobAddr (allocate_object FUEL 3000 mState1) = some 16 :=
  ⟨rfl, rfl, rfl, rfl, rfl, rfl⟩

/-- C3, counterexample: the claim says the double-free message goes to
standard error.  In the reached double-free state `aState2` (allocate 24
bytes, free, free again) the message "Double Free Detected" is written by
`printf` to file descriptor 1 — standard output, not standard error (fd
2) — before the abort; the heap is not modified before aborting. -/
theorem C3_double_free_message_on_stdout :
    memAt aState2 8136 % 8 = UNALLOCATED ∧
    abortLog (deallocate_object 8152 aState2) = some [(1, "Double Free Detected\n")] ∧
    abortWrites (deallocate_object 8152 aState2) = some aState2.writes ∧
    aState2.log = [] :=
  ⟨rfl, rfl, rfl, rfl⟩

/-- C3, amended: for every pointer `p` whose header is in state
UNALLOCATED, `my_free(p)` writes "Double Free Detected" to standard
OUTPUT and then aborts the process; the allocator state is not modified
before aborting (only the message is appended to the output log). -/
theorem C3_amended_double_free_aborts (s : AllocState) (p w : Nat)
    (hp : p ≠ 0)
    (hr : readW (ptr_to_header p) s = .ok (w, s))
    (hw : w % 8 = UNALLOCATED) :
    deallocate_object p s =
      .error (.assertFail { s with log := s.log ++ [(1, "Double Free Detected\n")] }) := by
  unfold deallocate_object get_block_state
  rw [if_neg hp]
  simp only [hr, bnd_ok, hw]
  rfl

/-- Witness for the amended C3 at the concrete double-free state. -/
theorem C3_amended_double_free_aborts_witness :
    (8152 : Nat) ≠ 0 ∧
    readW (ptr_to_header 8152) aState2 = .ok (40, aState2) ∧
    (40 : Nat) % 8 = UNALLOCATED ∧
    deallocate_object 8152 aState2 =
      .error (.assertFail
        { aState2 with log := aState2.log ++ [(1, "Double Free Detected\n")] }) :=
  ⟨by decide, rfl, by decide,
    C3_amended_double_free_aborts aState2 8152 40 (by decide) rfl (by decide)⟩

/-- C4: the claim says every operation that registers a new non-adjacent
chunk preserves `numOsChunks ≤ MAX_OS_CHUNKS`.  The guarded helper
`insert_os_chunk` does, but the registration inlined in the growth path of
`allocate_object` (myMalloc.c lines 276-277) does not: from a state with a
full registry, empty free lists and a non-adjacent fresh chunk, one
allocation drives `numOsChunks` to `MAX_OS_CHUNKS + 1` (and the C code
stores through `osChunkList[MAX_OS_CHUNKS]`, past the array). -/
theorem C4_growth_registration_exceeds_capacity :
    regFullState.numOsChunks = MAX_OS_CHUNKS ∧
    numOsOf (allocate_object FUEL 8 regFullState) = some (MAX_OS_CHUNKS + 1) :=
  ⟨rfl, rfl⟩

/-- C5, counterexample: the claim says that whenever the residue's class
is the catch-all, the residue is reattached between the remembered prev
and next of the chosen block.  In `bState3` the catch-all is sentinel →
7160 (1016 bytes) → 4112 (2032 bytes); `malloc(1528)` (needed size 1544)
chooses 4112 with remembered prev 7160 and next sentinel, and the residue
of 488 bytes has class `min((488-16)/8 - 1, N_LISTS-1) = N_LISTS-1`, the
catch-all.  Reattachment would leave sentinel.next = 7160 and
4112.prev = 7160; instead the code (whose reattach test is
`(extra-16)/8 - 1 ≥ N_LISTS`, myMalloc.c lines 298-311) pushes the
residue at the head: sentinel.next = 4112 and 4112.prev = sentinel. -/
theorem C5_boundary_residue_pushed_at_head :
    memAt bState3 (sentinelAddr 58 + 16) = 7160 ∧
    memAt bState3 7160 = 1016 ∧
    memAt bState3 (7160 + 16) = 4112 ∧
    memAt bState3 4112 = 2032 ∧
    min ((488 - ALLOC_HEADER_SIZE) / 8 - 1) (N_LISTS - 1) = N_LISTS - 1 ∧
    resultVal (allocate_object FUEL 1528 bState3) = some 4616 ∧
    memAt bState4 4112 = 488 ∧
    memAt bState4 (sentinelAddr 58 + 16) = 4112 ∧
    memAt bState4 (4112 + 16) = 7160 ∧
    memAt bState4 (4112 + 24) = sentinelAddr 58 ∧
    (4112 : Nat) ≠ 7160 :=
  ⟨rfl, rfl, rfl, rfl, by decide, rfl, rfl, rfl, rfl, rfl, by decide⟩

/-- C5, amended, as a universal statement about `finishAllocation` (the
embedding of myMalloc.c lines 288-322), for every chosen free block `hdr`
of stored word `w` (block size `w - w % 8`), remembered neighbours
`oldPrev`/`oldNext` and needed 8-aligned block size `size`, writing
`extra` for the spare space: (1) when `extra < sizeof(header)` the whole
block is allocated with no split — the only writes are the right
neighbour's boundary tag and the block's ALLOCATED state, and the data
pointer is `hdr + ALLOC_HEADER_SIZE`; (2) when `extra ≥ sizeof(header)`
and `(extra - ALLOC_HEADER_SIZE)/8 - 1 ≥ N_LISTS` the block is split, the
left residue of size `extra` is reattached between `oldPrev` and
`oldNext` (their link words point at `hdr` and its next/prev point back),
and the right part at `hdr + extra` is allocated with size `size`; (3)
when the raw class index is below `N_LISTS` — including the boundary
residue `extra = 488`, whose class min((extra - 16)/8 - 1, N_LISTS - 1)
IS the catch-all — the residue is instead pushed at the head of the list
of class `(extra - ALLOC_HEADER_SIZE)/8 - 1`; and (4) the reattach test
fires exactly for `extra ≥ 496 = ALLOC_HEADER_SIZE + (N_LISTS + 1) * 8`.
Each behavioural case ends in the complete resulting state, so the
placement of the residue is read off the write log. -/
theorem C5_amended_split_policy :
    (∀ (hdr oldPrev oldNext size w : Nat) (s : AllocState),
      mapped s hdr → lookupW s.writes hdr = w →
      size ≤ w - w % 8 → w - w % 8 - size < sizeofHeader →
      mapped s (hdr + (w - w % 8) + 8) →
      finishAllocation hdr oldPrev oldNext size s =
        .ok (hdr + ALLOC_HEADER_SIZE,
          { s with writes := (hdr, w - w % 8 + ALLOCATED) ::
              (hdr + (w - w % 8) + 8, w - w % 8) :: s.writes })) ∧
    (∀ (hdr oldPrev oldNext size extra w u : Nat) (s : AllocState),
      extra = w - w % 8 - size → size % 8 = 0 →
      sizeofHeader ≤ extra → N_LISTS ≤ (extra - ALLOC_HEADER_SIZE) / 8 - 1 →
      mapped s hdr → lookupW s.writes hdr = w →
      mapped s (hdr + 16) → mapped s (hdr + 24) →
      mapped s (oldNext + 24) → mapped s (oldPrev + 16) →
      mapped s (hdr + extra) → mapped s (hdr + extra + 8) →
      mapped s (hdr + extra + size + 8) →
      lookupW s.writes (hdr + extra) = u →
      hdr + extra ≠ oldNext + 24 → hdr + extra ≠ oldPrev + 16 →
      finishAllocation hdr oldPrev oldNext size s =
        .ok (hdr + extra + ALLOC_HEADER_SIZE,
          { s with writes :=
              (hdr + extra, size + ALLOCATED) ::
              (hdr + extra + size + 8, size) ::
              (hdr + extra + 8, extra) ::
              (hdr + extra, size + u % 8) ::
              (oldPrev + 16, hdr) ::
              (oldNext + 24, hdr) ::
              (hdr + 24, oldPrev) ::
              (hdr + 16, oldNext) ::
              (hdr, extra) ::
              (hdr, extra + w % 8) :: s.writes })) ∧
    (∀ (hdr oldPrev oldNext size extra loc w u sn : Nat) (s : AllocState),
      extra = w - w % 8 - size →
      loc = (extra - ALLOC_HEADER_SIZE) / 8 - 1 →
      size % 8 = 0 → sizeofHeader ≤ extra → loc < N_LISTS →
      mapped s hdr → lookupW s.writes hdr = w →
      mapped s (hdr + 16) → mapped s (hdr + 24) →
      mapped s (sn + 24) →
      mapped s (hdr + extra) → mapped s (hdr + extra + 8) →
      mapped s (hdr + extra + size + 8) →
      lookupW s.writes (sentinelAddr loc + 16) = sn →
      lookupW s.writes (hdr + extra) = u →
      sentinelAddr loc + 16 ≠ hdr → hdr ≠ sentinelAddr loc →
      hdr + extra ≠ sn + 24 → hdr + extra ≠ sentinelAddr loc + 16 →
      finishAllocation hdr oldPrev oldNext size s =
        .ok (hdr + extra + ALLOC_HEADER_SIZE,
          { s with writes :=
              (hdr + extra, size + ALLOCATED) ::
              (hdr + extra + size + 8, size) ::
              (hdr + extra + 8, extra) ::
              (hdr + extra, size + u % 8) ::
              (hdr + 24, sentinelAddr loc) ::
              (sn + 24, hdr) ::
              (sentinelAddr loc + 16, hdr) ::
              (hdr + 16, sn) ::
              (hdr, extra) ::
              (hdr, extra + w % 8) :: s.writes })) ∧
    (∀ extra : Nat, 32 ≤ extra →
      (N_LISTS ≤ (extra - ALLOC_HEADER_SIZE) / 8 - 1 ↔ 496 ≤ extra)) := by
  refine ⟨?_, ?_, ?_, ?_⟩
  · intro hdr oldPrev oldNext size w s hm hw hsz hlt hmr
    unfold finishAllocation allocReturn get_right_header get_block_size
      set_block_size set_block_state get_header_from_offset
    rw [readW_ok hm]
    simp only [bnd_ok]
    rw [hw]
    rw [if_neg (by omega)]
    rw [readW_ok hm]
    simp only [bnd_ok]
    rw [hw]
    rw [readW_ok hm]
    simp only [bnd_ok]
    rw [hw]
    rw [writeW_ok _ hmr]
    simp only [bnd_ok]
    rw [readW_ok (mapped_w hm)]
    simp only [bnd_ok]
    rw [lookupW_skip _ _ _ _ (by omega), hw]
    rw [writeW_ok _ (mapped_w hm)]
    simp only [bnd_ok]
  · intro hdr oldPrev oldNext size extra w u s hex h8 hge hB hm hw hm16 hm24 hmN hmP
      hm2 hm28 hmr hu hd1 hd2
    have hge' : 32 ≤ extra := hge
    unfold finishAllocation allocReturn get_right_header get_block_size
      set_block_size set_block_state get_header_from_offset
    rw [readW_ok hm]
    simp only [bnd_ok]
    rw [hw]
    rw [← hex]
    rw [if_pos hge]
    rw [readW_ok hm]
    simp only [bnd_ok]
    rw [hw]
    rw [show extra - extra % 8 + w % 8 = extra + w % 8 from by omega]
    rw [writeW_ok _ hm]
    simp only [bnd_ok]
    rw [readW_ok (mapped_w hm)]
    simp only [bnd_ok]
    rw [lookupW_head]
    rw [show extra + w % 8 - (extra + w % 8) % 8 + UNALLOCATED = extra from by
      rw [show UNALLOCATED = 0 from rfl]; omega]
    rw [writeW_ok _ (mapped_w hm)]
    simp only [bnd_ok]
    rw [if_pos hB]
    rw [writeW_ok _ (mapped_w hm16)]
    simp only [bnd_ok]
    rw [writeW_ok _ (mapped_w hm24)]
    simp only [bnd_ok]
    rw [writeW_ok _ (mapped_w hmN)]
    simp only [bnd_ok]
    rw [writeW_ok _ (mapped_w hmP)]
    simp only [bnd_ok]
    rw [readW_ok (mapped_w hm2)]
    simp only [bnd_ok]
    rw [lookupW_skip _ _ _ _ hd2, lookupW_skip _ _ _ _ hd1,
        lookupW_skip _ _ _ _ (by omega), lookupW_skip _ _ _ _ (by omega),
        lookupW_skip _ _ _ _ (by omega), lookupW_skip _ _ _ _ (by omega), hu]
    rw [show size - size % 8 + u % 8 = size + u % 8 from by omega]
    rw [writeW_ok _ (mapped_w hm2)]
    simp only [bnd_ok]
    rw [writeW_ok _ (mapped_w hm28)]
    simp only [bnd_ok]
    rw [readW_ok (mapped_w hm2)]
    simp only [bnd_ok]
    rw [lookupW_skip _ _ _ _ (by omega), lookupW_head]
    rw [show size + u % 8 - (size + u % 8) % 8 = size from by omega]
    rw [readW_ok (mapped_w hm2)]
    simp only [bnd_ok]
    rw [lookupW_skip _ _ _ _ (by omega), lookupW_head]
    rw [show size + u % 8 - (size + u % 8) % 8 = size from by omega]
    rw [writeW_ok _ (mapped_w hmr)]
    simp only [bnd_ok]
    rw [readW_ok (mapped_w hm2)]
    simp only [bnd_ok]
    rw [lookupW_skip _ _ _ _ (by omega), lookupW_skip _ _ _ _ (by omega), lookupW_head]
    rw [show size + u % 8 - (size + u % 8) % 8 + ALLOCATED = size + ALLOCATED from by
      rw [show ALLOCATED = 1 from rfl]; omega]
    rw [writeW_ok _ (mapped_w hm2)]
    simp only [bnd_ok]
  · intro hdr oldPrev oldNext size extra loc w u sn s hex hloc h8 hge hlt hm hw hm16
      hm24 hmS hm2 hm28 hmr hsn hu hsd hns hdC1 hdC2
    have hge' : 32 ≤ extra := hge
    have h59 : loc < 59 := hlt
    have hms : mapped s (sentinelAddr loc + 16) := by
      refine ⟨?_, Or.inl ⟨?_, ?_⟩⟩
      · unfold sentinelAddr SENT_BASE sizeofHeader; omega
      · unfold sentinelAddr SENT_BASE; omega
      · unfold SENT_END sentinelAddr SENT_BASE N_LISTS sizeofHeader; omega
    unfold finishAllocation allocReturn get_right_header get_block_size
      set_block_size set_block_state get_header_from_offset
    rw [readW_ok hm]
    simp only [bnd_ok]
    rw [hw]
    rw [← hex]
    rw [if_pos hge]
    rw [readW_ok hm]
    simp only [bnd_ok]
    rw [hw]
    rw [show extra - extra % 8 + w % 8 = extra + w % 8 from by omega]
    rw [writeW_ok _ hm]
    simp only [bnd_ok]
    rw [readW_ok (mapped_w hm)]
    simp only [bnd_ok]
    rw [lookupW_head]
    rw [show extra + w % 8 - (extra + w % 8) % 8 + UNALLOCATED = extra from by
      rw [show UNALLOCATED = 0 from rfl]; omega]
    rw [writeW_ok _ (mapped_w hm)]
    simp only [bnd_ok]
    rw [← hloc]
    rw [if_neg (by omega)]
    rw [readW_ok (mapped_w hms)]
    simp only [bnd_ok]
    rw [lookupW_skip _ _ _ _ hsd, lookupW_skip _ _ _ _ hsd, hsn]
    rw [writeW_ok _ (mapped_w hm16)]
    simp only [bnd_ok]
    rw [writeW_ok _ (mapped_w hms)]
    simp only [bnd_ok]
    rw [readW_ok (mapped_w hm16)]
    simp only [bnd_ok]
    rw [lookupW_skip _ _ _ _ (by omega), lookupW_head]
    rw [writeW_ok _ (mapped_w hmS)]
    simp only [bnd_ok]
    rw [writeW_ok _ (mapped_w hm24)]
    simp only [bnd_ok]
    rw [readW_ok (mapped_w hm2)]
    simp only [bnd_ok]
    rw [lookupW_skip _ _ _ _ (by omega), lookupW_skip _ _ _ _ hdC1,
        lookupW_skip _ _ _ _ hdC2, lookupW_skip _ _ _ _ (by omega),
        lookupW_skip _ _ _ _ (by omega), lookupW_skip _ _ _ _ (by omega), hu]
    rw [show size - size % 8 + u % 8 = size + u % 8 from by omega]
    rw [writeW_ok _ (mapped_w hm2)]
    simp only [bnd_ok]
    rw [writeW_ok _ (mapped_w hm28)]
    simp only [bnd_ok]
    rw [readW_ok (mapped_w hm2)]
    simp only [bnd_ok]
    rw [lookupW_skip _ _ _ _ (by omega), lookupW_head]
    rw [show size + u % 8 - (size + u % 8) % 8 = size from by omega]
    rw [readW_ok (mapped_w hm2)]
    simp only [bnd_ok]
    rw [lookupW_skip _ _ _ _ (by omega), lookupW_head]
    rw [show size + u % 8 - (size + u % 8) % 8 = size from by omega]
    rw [writeW_ok _ (mapped_w hmr)]
    simp only [bnd_ok]
    rw [readW_ok (mapped_w hm2)]
    simp only [bnd_ok]
    rw [lookupW_skip _ _ _ _ (by omega), lookupW_skip _ _ _ _ (by omega), lookupW_head]
    rw [show size + u % 8 - (size + u % 8) % 8 + ALLOCATED = size + ALLOCATED from by
      rw [show ALLOCATED = 1 from rfl]; omega]
    rw [writeW_ok _ (mapped_w hm2)]
    simp only [bnd_ok]
  · intro extra h
    unfold N_LISTS ALLOC_HEADER_SIZE
    omega

/-- Witness for the amended C5: all three behavioural cases instantiated
from the one mid-search state `c5midState` (chosen block 4112 of word
2032, prev 7160, next sentinel 2880, program break 8192), plus the branch
characterisation at the boundary residue 488.  Needed size 2024 leaves
extra 8: no split.  Needed size 1536 leaves extra 496: split, residue
reattached between 7160 and 2880 (these are the final states of the runs
behind `bState5` and `bState4`).  Needed size 1544 leaves extra 488:
split, residue pushed at the head of the catch-all list (sentinel 2880,
old head 7160). -/
theorem C5_amended_split_policy_witness :
    finishAllocation 4112 7160 2880 2024 c5midState =
      .ok (4128, { c5midState with writes :=
        (4112, 2033) :: (6152, 2032) :: c5midState.writes }) ∧
    finishAllocation 4112 7160 2880 1536 c5midState =
      .ok (4624, { c5midState with writes :=
        (4608, 1537) :: (6152, 1536) :: (4616, 496) :: (4608, 1536) ::
        (7176, 4112) :: (2904, 4112) :: (4136, 7160) :: (4128, 2880) ::
        (4112, 496) :: (4112, 496) :: c5midState.writes }) ∧
    finishAllocation 4112 7160 2880 1544 c5midState =
      .ok (4616, { c5midState with writes :=
        (4600, 1545) :: (6152, 1544) :: (4608, 488) :: (4600, 1544) ::
        (4136, 2880) :: (7184, 4112) :: (2896, 4112) :: (4128, 7160) ::
        (4112, 488) :: (4112, 488) :: c5midState.writes }) ∧
    (N_LISTS ≤ (488 - ALLOC_HEADER_SIZE) / 8 - 1 ↔ 496 ≤ 488) :=
  ⟨C5_amended_split_policy.1 4112 7160 2880 2024 2032 c5midState (by decide) rfl
      (by decide) (by decide) (by decide),
   C5_amended_split_policy.2.1 4112 7160 2880 1536 496 2032 0 c5midState (by decide)
      (by decide) (by decide) (by decide) (by decide) rfl (by decide) (by decide)
      (by decide) (by decide) (by decide) (by decide) (by decide) rfl (by decide)
      (by decide),
   C5_amended_split_policy.2.2.1 4112 7160 2880 1544 488 58 2032 0 7160 c5midState
      (by decide) (by decide) (by decide) (by decide) (by decide) (by decide) rfl
      (by decide) (by decide) (by decide) (by decide) (by decide) (by decide) rfl rfl
      (by decide) (by decide) (by decide) (by decide),
   C5_amended_split_policy.2.2.2 488 (by decide)⟩

/-- C6: the claim describes the insertion after coalescing; it holds when
only one side coalesces, but when the block coalesces with a small free
left neighbour (not catch-all) AND a catch-all free right neighbour, the
code splices using the RECOMPUTED right neighbour of the merged block
(myMalloc.c line 398 reassigns `right`), not the coalesced neighbour's
former position.  Here that recomputed neighbour is the right fencepost
8176, whose "next" field lies past the program break: `free(4160)` on the
layout free 4112 (32) / allocated 4144 (1016) / free 5160 (3016, catch-all
head) / fencepost 8176 faults reading word 8192 instead of splicing the
merged block into 5160's former position. -/
theorem C6_combined_coalesce_invalid_splice :
    memAt dState3 4112 = 32 ∧
    memAt dState3 4144 = 1016 + ALLOCATED ∧
    memAt dState3 5160 = 3016 ∧
    memAt dState3 8176 = ALLOC_HEADER_SIZE + FENCEPOST ∧
    memAt dState3 (sentinelAddr 58 + 16) = 5160 ∧
    memAt dState3 (sentinelAddr 1 + 16) = 4112 ∧
    memAt dState3 (4144 + 8) = 32 ∧
    memAt dState3 (5160 + 8) = 1016 ∧
    dState3.brk = 8192 ∧
    (N_LISTS - 1) * 8 + ALLOC_HEADER_SIZE < 3016 ∧
    oobAddr (deallocate_object 4160 dState3) = some 8192 :=
  ⟨rfl, rfl, rfl, rfl, rfl, rfl, rfl, rfl, rfl, by decide, rfl⟩

/-- C8: the claim says no reachable state has two adjacent UNALLOCATED
blocks.  The 23-operation trace `gState23` (all public allocate and
deallocate calls from the initial state, every one succeeding) refutes
it: the final free exercises the splice slip of myMalloc.c line 398
through an allocated block whose data words hold stale list pointers, and
the write `right->next->prev = hdr` lands on the header word of the
allocated block `T` at 8136, turning its state to UNALLOCATED while the
block `F` at 8080 directly to its left is UNALLOCATED.  The invariant
(`spec_no_adjacent_free`, written from the spec's words) holds in the
initial state and right up to the last operation, and fails after it. -/
theorem C8_adjacent_free_blocks_reachable :
    resultVal (allocate_object FUEL 16 initState) = some 8160 ∧
    memAt gState8 8064 = 8112 ∧
    memAt gState8 8072 = sentinelAddr 1 ∧
    resultVal (allocate_object FUEL 16 gState10) = some 8064 ∧
    memAt gState11 8048 = 32 + ALLOCATED ∧
    memAt gState11 8064 = 8112 ∧
    memAt gState11 8072 = sentinelAddr 1 ∧
    resultVal (allocate_object FUEL 24 gState15) = some 8152 ∧
    memAt gState16 8080 = 56 ∧
    memAt gState16 8136 = 40 + ALLOCATED ∧
    spec_no_adjacent_free 70 initState = true ∧
    spec_no_adjacent_free 70 gState22 = true ∧
    memAt gState22 8136 = 40 + ALLOCATED ∧
    resultVal (deallocate_object 6544 gState22) = some () ∧
    spec_no_adjacent_free 70 gState23 = false ∧
    memAt gState23 8080 = 56 + UNALLOCATED ∧
    memAt gState23 (8080 + 56) = 6408 ∧
    memAt gState23 (8080 + 56) % 8 = UNALLOCATED :=
  ⟨rfl, rfl, rfl, rfl, rfl, rfl, rfl, rfl, rfl, rfl, rfl, rfl, rfl, rfl, rfl, rfl, rfl, rfl⟩

/-- C7: for every (sane) size `S` — a multiple of 8, at least 48 bytes and
below `2^64` — and every state whose break is 8-aligned, at or above
`HEAP_BASE`, and whose memory beyond the break is fresh (sbrk yields
zeroed pages), `allocate_chunk S` establishes exactly the claimed layout:
a left fencepost at byte 0 of the chunk (header word
`ALLOC_HEADER_SIZE + FENCEPOST`, i.e. size `H` in state FENCEPOST) with
`left_size = H`; a right fencepost at byte `S - H` with
`left_size = S - 2H`; and it returns the middle block at byte `H`, marked
UNALLOCATED, with size `S - 2H` and `left_size = H`. -/
theorem C7_allocate_chunk_layout (S : Nat) (s : AllocState)
    (h8 : S % 8 = 0) (h48 : 48 ≤ S) (hlt : S < 2 ^ 64)
    (hbrk : s.brk % 8 = 0) (hbase : HEAP_BASE ≤ s.brk)
    (hfresh : ∀ a, s.brk ≤ a → lookupW s.writes a = 0) :
    ∃ s' : AllocState,
      allocate_chunk S s = .ok (s.brk + ALLOC_HEADER_SIZE, s') ∧
      memAt s' s.brk = ALLOC_HEADER_SIZE + FENCEPOST ∧
      memAt s' (s.brk + 8) = ALLOC_HEADER_SIZE ∧
      memAt s' (s.brk + (S - ALLOC_HEADER_SIZE)) = ALLOC_HEADER_SIZE + FENCEPOST ∧
      memAt s' (s.brk + (S - ALLOC_HEADER_SIZE) + 8) = S - 2 * ALLOC_HEADER_SIZE ∧
      memAt s' (s.brk + ALLOC_HEADER_SIZE) = (S - 2 * ALLOC_HEADER_SIZE) + UNALLOCATED ∧
      memAt s' (s.brk + ALLOC_HEADER_SIZE + 8) = ALLOC_HEADER_SIZE ∧
      s'.brk = s.brk + S := by
  have hb : (4096 : Nat) ≤ s.brk := hbase
  have hsub : sub64 S (2 * ALLOC_HEADER_SIZE) = S - 32 := by
    unfold sub64 ALLOC_HEADER_SIZE; omega
  have hoff : offNeg (s.brk + S) ALLOC_HEADER_SIZE = s.brk + S - 16 := by
    unfold offNeg ALLOC_HEADER_SIZE
    rw [if_pos (by omega)]
  have hrun : allocate_chunk S s = .ok (s.brk + ALLOC_HEADER_SIZE,
      { s with brk := s.brk + S,
               writes := (s.brk + 24, 16) :: (s.brk + 16, S - 32) :: (s.brk + 16, 0) ::
                 (s.brk + S - 8, S - 32) :: (s.brk + S - 16, 18) :: (s.brk + S - 16, 2) ::
                 (s.brk + 8, 16) :: (s.brk, 18) :: (s.brk, 2) :: s.writes }) := by
    unfold allocate_chunk sbrkM insert_fenceposts initialize_fencepost
    unfold set_block_state set_block_size get_header_from_offset
    simp only [bnd_ok]
    rw [hoff, hsub, show ALLOC_HEADER_SIZE = 16 from rfl]
    -- left fencepost: set_block_state
    rw [readW_ok (mapped_brk (by omega))]
    simp only [bnd_ok]
    rw [hfresh s.brk (Nat.le_refl _)]
    rw [writeW_ok _ (mapped_brk (by omega))]
    simp only [bnd_ok]
    rw [show (0 : Nat) - 0 % 8 + FENCEPOST = 2 from rfl]
    -- left fencepost: set_block_size
    rw [readW_ok (mapped_brk (by omega))]
    simp only [bnd_ok]
    rw [lookupW_head]
    rw [writeW_ok _ (mapped_brk (by omega))]
    simp only [bnd_ok]
    rw [show (16 : Nat) - 16 % 8 + 2 % 8 = 18 from rfl]
    -- left fencepost: left_size
    rw [writeW_ok _ (mapped_brk (by omega))]
    simp only [bnd_ok]
    -- right fencepost: set_block_state
    rw [readW_ok (mapped_brk (by omega))]
    simp only [bnd_ok]
    rw [lookupW_skip _ _ _ _ (by omega), lookupW_skip _ _ _ _ (by omega),
        lookupW_skip _ _ _ _ (by omega), hfresh _ (by omega)]
    rw [writeW_ok _ (mapped_brk (by omega))]
    simp only [bnd_ok]
    rw [show (0 : Nat) - 0 % 8 + FENCEPOST = 2 from rfl]
    -- right fencepost: set_block_size
    rw [readW_ok (mapped_brk (by omega))]
    simp only [bnd_ok]
    rw [lookupW_head]
    rw [writeW_ok _ (mapped_brk (by omega))]
    simp only [bnd_ok]
    rw [show (16 : Nat) - 16 % 8 + 2 % 8 = 18 from rfl]
    -- right fencepost: left_size
    rw [writeW_ok _ (mapped_brk (by omega))]
    simp only [bnd_ok]
    -- middle block: set_block_state
    rw [readW_ok (mapped_brk (by omega))]
    simp only [bnd_ok]
    rw [lookupW_skip _ _ _ _ (by omega), lookupW_skip _ _ _ _ (by omega),
        lookupW_skip _ _ _ _ (by omega), lookupW_skip _ _ _ _ (by omega),
        lookupW_skip _ _ _ _ (by omega), lookupW_skip _ _ _ _ (by omega),
        hfresh _ (by omega)]
    rw [writeW_ok _ (mapped_brk (by omega))]
    simp only [bnd_ok]
    rw [show (0 : Nat) - 0 % 8 + UNALLOCATED = 0 from rfl]
    -- middle block: set_block_size
    rw [readW_ok (mapped_brk (by omega))]
    simp only [bnd_ok]
    rw [lookupW_head]
    rw [writeW_ok _ (mapped_brk (by omega))]
    simp only [bnd_ok]
    rw [show S - 32 - (S - 32) % 8 + 0 % 8 = S - 32 - (S - 32) % 8 from rfl,
        show (S - 32) % 8 = 0 from by omega]
    -- middle block: left_size
    rw [writeW_ok _ (mapped_brk (by omega))]
    simp only [bnd_ok]
    rw [show s.brk + 16 + 8 = s.brk + 24 from by omega,
        show S - 32 - 0 = S - 32 from rfl,
        show s.brk + S - 16 + 8 = s.brk + S - 8 from by omega]
  refine ⟨_, hrun, ?_, ?_, ?_, ?_, ?_, ?_, ?_⟩
  · show lookupW _ _ = _
    rw [lookupW_skip _ _ _ _ (by omega), lookupW_skip _ _ _ _ (by omega),
        lookupW_skip _ _ _ _ (by omega), lookupW_skip _ _ _ _ (by omega),
        lookupW_skip _ _ _ _ (by omega), lookupW_skip _ _ _ _ (by omega),
        lookupW_skip _ _ _ _ (by omega), lookupW_head]
    rfl
  · show lookupW _ _ = _
    rw [lookupW_skip _ _ _ _ (by omega), lookupW_skip _ _ _ _ (by omega),
        lookupW_skip _ _ _ _ (by omega), lookupW_skip _ _ _ _ (by omega),
        lookupW_skip _ _ _ _ (by omega), lookupW_skip _ _ _ _ (by omega),
        lookupW_head]
    rfl
  · show lookupW _ (s.brk + (S - ALLOC_HEADER_SIZE)) = _
    rw [show s.brk + (S - ALLOC_HEADER_SIZE) = s.brk + S - 16 from by
      unfold ALLOC_HEADER_SIZE; omega]
    rw [lookupW_skip _ _ _ _ (by omega), lookupW_skip _ _ _ _ (by omega),
        lookupW_skip _ _ _ _ (by omega), lookupW_skip _ _ _ _ (by omega),
        lookupW_head]
    rfl
  · show lookupW _ (s.brk + (S - ALLOC_HEADER_SIZE) + 8) = _
    rw [show s.brk + (S - ALLOC_HEADER_SIZE) + 8 = s.brk + S - 8 from by
      unfold ALLOC_HEADER_SIZE; omega]
    rw [lookupW_skip _ _ _ _ (by omega), lookupW_skip _ _ _ _ (by omega),
        lookupW_skip _ _ _ _ (by omega), lookupW_head]
    rfl
  · show lookupW _ _ = _
    rw [show ALLOC_HEADER_SIZE = 16 from rfl]
    rw [lookupW_skip _ _ _ _ (by omega), lookupW_head]
    rfl
  · show lookupW _ _ = _
    rw [show ALLOC_HEADER_SIZE = 16 from rfl]
    rw [lookupW_head]
  · rfl

/-- Witness for C7 at `S = ARENA_SIZE` from the pristine machine. -/
theorem C7_allocate_chunk_layout_witness :
    (ARENA_SIZE % 8 = 0 ∧ 48 ≤ ARENA_SIZE ∧ ARENA_SIZE < 2 ^ 64 ∧
     blankState.brk % 8 = 0 ∧ HEAP_BASE ≤ blankState.brk) ∧
    ∃ s' : AllocState,
      allocate_chunk ARENA_SIZE blankState = .ok (blankState.brk + ALLOC_HEADER_SIZE, s') ∧
      memAt s' blankState.brk = ALLOC_HEADER_SIZE + FENCEPOST ∧
      memAt s' (blankState.brk + 8) = ALLOC_HEADER_SIZE ∧
      memAt s' (blankState.brk + (ARENA_SIZE - ALLOC_HEADER_SIZE)) =
        ALLOC_HEADER_SIZE + FENCEPOST ∧
      memAt s' (blankState.brk + (ARENA_SIZE - ALLOC_HEADER_SIZE) + 8) =
        ARENA_SIZE - 2 * ALLOC_HEADER_SIZE ∧
      memAt s' (blankState.brk + ALLOC_HEADER_SIZE) =
        (ARENA_SIZE - 2 * ALLOC_HEADER_SIZE) + UNALLOCATED ∧
      memAt s' (blankState.brk + ALLOC_HEADER_SIZE + 8) = ALLOC_HEADER_SIZE ∧
      s'.brk = blankState.brk + ARENA_SIZE :=
  ⟨⟨by decide, by decide, by decide, by decide, by decide⟩,
   C7_allocate_chunk_layout ARENA_SIZE blankState (by decide) (by decide) (by decide)
     (by decide) (by decide) (fun a _ => rfl)⟩

/-- C9: `my_realloc(ptr, size)` is exactly "allocate `size` bytes, copy
`size` bytes from `ptr` — regardless of the old block's size — free
`ptr`, return the new pointer": whenever the three stages succeed, the
composition is what `my_realloc` returns, and (for word-aligned sizes and
the non-overlapping blocks malloc hands out) the copied region of the new
block equals the `size` bytes starting at `ptr`, old block boundary or
not. -/
theorem C9_realloc_copies_size_bytes (fuel ptr size mem : Nat) (s s1 s2 s3 : AllocState)
    (h1 : my_malloc fuel size s = .ok (mem, s1))
    (h2 : memcpyW mem ptr size s1 = .ok ((), s2))
    (h3 : my_free ptr s2 = .ok ((), s3)) :
    my_realloc fuel ptr size s = .ok (mem, s3) ∧
    ((mem + size ≤ ptr ∨ ptr + size ≤ mem) →
      ∀ k, k < size / 8 → memAt s2 (mem + 8 * k) = memAt s1 (ptr + 8 * k)) := by
  constructor
  · unfold my_realloc
    rw [h1, bnd_ok, h2, bnd_ok, h3, bnd_ok]
  · intro hdisj k hk
    have hd : mem + 8 * (size / 8) ≤ ptr ∨ ptr + 8 * (size / 8) ≤ mem := by
      have : 8 * (size / 8) ≤ size := Nat.mul_div_le size 8
      omega
    exact (mcLoop_copies (size / 8) mem ptr s1 s2 hd h2).1 k hk

/-- Witness for C9: realloc of the 24-byte-bodied block at 8152 to 32
bytes; the copy includes the word at offset 24, beyond the old body —
it receives the right fencepost's header word 18. -/
theorem C9_realloc_copies_size_bytes_witness :
    my_malloc FUEL 32 aState1 = .ok (8104, rState2) ∧
    memcpyW 8104 8152 32 rState2 = .ok ((), rState3) ∧
    my_free 8152 rState3 = .ok ((), rState4) ∧
    my_realloc FUEL 8152 32 aState1 = .ok (8104, rState4) ∧
    memAt rState3 (8104 + 8 * 3) = memAt rState2 (8152 + 8 * 3) ∧
    memAt rState3 (8104 + 8 * 3) = ALLOC_HEADER_SIZE + FENCEPOST :=
  ⟨rfl, rfl, rfl,
   (C9_realloc_copies_size_bytes FUEL 8152 32 8104 aState1 rState2 rState3 rState4
     rfl rfl rfl).1,
   (C9_realloc_copies_size_bytes FUEL 8152 32 8104 aState1 rState2 rState3 rState4
     rfl rfl rfl).2 (by decide) 3 (by decide),
   rfl⟩

/-- C10: `my_calloc(n, size)` computes its byte count as the wrapping
64-bit product with no overflow check: the length passed to both
`my_malloc` and `memset` is `size * n mod 2^64`; when that wrapped
product is 0 the underlying `my_malloc` returns null (and calloc returns
it, zeroing nothing); and whatever block malloc returns has its
`(size * n mod 2^64)` bytes zeroed. -/
theorem C10_calloc_wrapping_product (fuel n size : Nat) (s : AllocState) :
    (n * size % 2 ^ 64 = 0 →
      my_malloc fuel (size * n % 2 ^ 64) s = .ok (0, s) ∧
      my_calloc fuel n size s = .ok (0, s)) ∧
    (∀ p s1, my_malloc fuel (size * n % 2 ^ 64) s = .ok (p, s1) →
      my_calloc fuel n size s = memsetW p 0 (size * n % 2 ^ 64) s1) ∧
    (∀ p s1 s2, my_malloc fuel (size * n % 2 ^ 64) s = .ok (p, s1) →
      memsetW p 0 (size * n % 2 ^ 64) s1 = .ok (p, s2) →
      ∀ k, k < size * n % 2 ^ 64 / 8 → memAt s2 (p + 8 * k) = 0) := by
  refine ⟨?_, ?_, ?_⟩
  · intro h
    have h' : size * n % 2 ^ 64 = 0 := by rw [Nat.mul_comm]; exact h
    have hm : my_malloc fuel 0 s = .ok (0, s) := by
      unfold my_malloc
      cases fuel <;> rfl
    constructor
    · rw [h']; exact hm
    · unfold my_calloc
      rw [h', hm, bnd_ok]
      rfl
  · intro p s1 h1
    unfold my_calloc
    rw [h1, bnd_ok]
  · intro p s1 s2 h1 h2 k hk
    unfold memsetW at h2
    rcases hml : msLoop (size * n % 2 ^ 64 / 8) p 0 s1 with e | ⟨u, sx⟩
    · rw [hml, bnd_err] at h2; exact absurd h2 (by simp)
    · rw [hml, bnd_ok] at h2
      injection h2 with h2
      injection h2 with _ h2
      subst h2
      match u with
      | () => exact (msLoop_sets _ p 0 s1 sx hml).1 k hk

/-- Witness for C10 at `n = size = 2^32`, whose product wraps to 0. -/
theorem C10_calloc_wrapping_product_witness :
    (2 ^ 32) * (2 ^ 32) % 2 ^ 64 = 0 ∧
    my_malloc 0 ((2 ^ 32) * (2 ^ 32) % 2 ^ 64) blankState = .ok (0, blankState) ∧
    my_calloc 0 (2 ^ 32) (2 ^ 32) blankState = .ok (0, blankState) :=
  ⟨by decide,
   ((C10_calloc_wrapping_product 0 (2 ^ 32) (2 ^ 32) blankState).1 (by decide)).1,
   ((C10_calloc_wrapping_product 0 (2 ^ 32) (2 ^ 32) blankState).1 (by decide)).2⟩

end MyMalloc
